import Mathlib

/-!
Shallow embedding of `src/plot.py` from the `orderbook` repository.

The script reads `orderbook_benchmark.csv` into a pandas DataFrame, draws
four bar charts (one per metric, each with error bars) into a 2×2 grid of
axes, applies `tight_layout`, saves the figure to `orderbook_benchmark.png`
and finally shows it.

The embedding models the parsed CSV as a `DataFrame` (header plus rows of
cells), each `df.plot.bar(x=…, y=…, yerr=…, title=…)` call as a fallible
column extraction producing a `Panel` of `Bar`s, and the script as a
sequential `Option`-valued computation that also records the ordered list
of side effects (`tight_layout`, `savefig`, `show`).
-/

/-- A cell of the CSV: the `Implementation` column holds strings, the eight
metric columns hold numbers (modelled exactly as rationals, since the script
performs no arithmetic on them). -/
inductive Value where
  | str : String → Value
  | num : ℚ → Value
deriving DecidableEq, Repr

/-- The parsed CSV, as produced by `pd.read_csv`: a header row of column
names and a list of data rows. -/
structure DataFrame where
  header : List String
  rows : List (List Value)
deriving DecidableEq, Repr

/-- A row is well formed when it has one cell per header column; a
DataFrame parsed from a rectangular CSV satisfies this for every row. -/
def WellFormed (df : DataFrame) : Prop :=
  ∀ r ∈ df.rows, r.length = df.header.length

instance (df : DataFrame) : Decidable (WellFormed df) := by
  unfold WellFormed; infer_instance

/-- Index of the first column with the given name (pandas label lookup). -/
def lookupIdx (name : String) : List String → Option Nat
  | [] => none
  | c :: cs => if c = name then some 0 else (lookupIdx name cs).map (· + 1)

/-- Extract the `i`-th cell of every row; fails if some row is too short. -/
def getCells (i : Nat) : List (List Value) → Option (List Value)
  | [] => some []
  | r :: rs => do
    let v ← r.get? i
    let vs ← getCells i rs
    pure (v :: vs)

/-- Column lookup on a DataFrame: find the index of the column in the header,
then read that cell from every row (a `KeyError` — here `none` — when the
column name is absent). -/
def DataFrame.col (df : DataFrame) (name : String) : Option (List Value) :=
  match lookupIdx name df.header with
  | none => none
  | some i => getCells i df.rows

/-- One bar of a bar chart: its category label (from the `x` column), its
height (from the `y` column) and its symmetric error-bar half-width (from
the `yerr` column). -/
structure Bar where
  label : Value
  height : Value
  err : Value
deriving DecidableEq, Repr

/-- One panel (one Axes of the 2×2 grid): its title and its bars. -/
structure Panel where
  title : String
  bars : List Bar
deriving DecidableEq, Repr

/-- Zip three equal-length columns into a list of bars, one per row. -/
def mkBars : List Value → List Value → List Value → List Bar
  | x :: xs, y :: ys, e :: es => ⟨x, y, e⟩ :: mkBars xs ys es
  | _, _, _ => []

/-- `df.plot.bar(x=x, y=y, yerr=yerr, title=title)`: look up the three
columns (raising — returning `none` — if any is missing) and draw one bar
per row, in row order. -/
def DataFrame.plotBar (df : DataFrame) (x y yerr title : String) :
    Option Panel := do
  let xs ← df.col x
  let ys ← df.col y
  let es ← df.col yerr
  pure ⟨title, mkBars xs ys es⟩

/-- The four panels of the 2×2 grid, by position. -/
structure Figure where
  topLeft : Panel
  topRight : Panel
  bottomLeft : Panel
  bottomRight : Panel
deriving DecidableEq, Repr

/-- The observable side effects of the tail of the script, in order. -/
inductive Effect where
  | tightLayout : Effect
  | savefig : String → Effect
  | showFig : Effect
deriving DecidableEq, Repr

/-- What a successful run produces: the rendered figure and the ordered
side effects performed after rendering. -/
structure RunOutput where
  figure : Figure
  effects : List Effect
deriving DecidableEq, Repr

/-- `df.plot.bar` does not mutate the DataFrame: it returns the drawn panel
and leaves the data exactly as it was. -/
def plotBarS (df : DataFrame) (x y yerr title : String) :
    Option (Panel × DataFrame) :=
  (df.plotBar x y yerr title).map (fun p => (p, df))

/-- The whole script, threading the DataFrame through every step so that
mutation (if any) would be visible: read the CSV (`none` models a missing
or unreadable file), draw the four panels with their fixed titles into the
fixed grid positions, then `tight_layout`, `savefig`, `show`. -/
def runScriptT (file : Option DataFrame) : Option (RunOutput × DataFrame) := do
  let df ← file
  let (p00, df1) ← plotBarS df "Implementation" "Add Mean" "Add StdDev" "Add Orders (μs)"
  let (p01, df2) ← plotBarS df1 "Implementation" "Modify Mean" "Modify StdDev" "Modify Orders (μs)"
  let (p10, df3) ← plotBarS df2 "Implementation" "Delete Mean" "Delete StdDev" "Delete Orders (μs)"
  let (p11, df4) ← plotBarS df3 "Implementation" "BestPrice Mean" "BestPrice StdDev" "Best Price Lookup (ns)"
  pure (⟨⟨p00, p01, p10, p11⟩,
         [Effect.tightLayout, Effect.savefig "orderbook_benchmark.png", Effect.showFig]⟩, df4)

/-- The externally visible result of the script. -/
def runScript (file : Option DataFrame) : Option RunOutput :=
  (runScriptT file).map Prod.fst

/-- The nine columns the script consumes, in the header order of the spec. -/
def requiredColumns : List String :=
  ["Implementation", "Add Mean", "Add StdDev", "Modify Mean", "Modify StdDev",
   "Delete Mean", "Delete StdDev", "BestPrice Mean", "BestPrice StdDev"]

/-- The input CSV has every required column. -/
def HasRequiredColumns (df : DataFrame) : Prop :=
  ∀ c ∈ requiredColumns, c ∈ df.header

instance (df : DataFrame) : Decidable (HasRequiredColumns df) := by
  unfold HasRequiredColumns; infer_instance

/-- Whether a run wrote the output PNG. -/
def pngWritten (r : Option RunOutput) : Bool :=
  match r with
  | none => false
  | some out => out.effects.contains (Effect.savefig "orderbook_benchmark.png")

/-- The four panels as a list, in reading order of the grid. -/
def panelList (f : Figure) : List Panel :=
  [f.topLeft, f.topRight, f.bottomLeft, f.bottomRight]

/-- The values of a column that is known to be present. -/
def colD (df : DataFrame) (name : String) : List Value :=
  (df.col name).getD []

/-- The example dataset of spec §8:
rows `("A", 1.0, 0.1, 2.0, 0.2, 3.0, 0.3, 10, 1)` and
`("B", 1.5, 0.2, 2.5, 0.3, 3.5, 0.4, 12, 2)`. -/
def exampleDf : DataFrame :=
  { header := requiredColumns,
    rows := [[Value.str "A", Value.num 1, Value.num (1/10), Value.num 2,
              Value.num (1/5), Value.num 3, Value.num (3/10), Value.num 10,
              Value.num 1],
             [Value.str "B", Value.num (3/2), Value.num (1/5), Value.num (5/2),
              Value.num (3/10), Value.num (7/2), Value.num (2/5), Value.num 12,
              Value.num 2]] }

/-- The side effects every successful run performs, in program order. -/
def scriptEffects : List Effect :=
  [Effect.tightLayout, Effect.savefig "orderbook_benchmark.png", Effect.showFig]

/-- The panel drawn by one `plot.bar` call, expressed through column reads. -/
def mkPanel (df : DataFrame) (x y e t : String) : Panel :=
  ⟨t, mkBars (colD df x) (colD df y) (colD df e)⟩

/-- The figure a successful run renders. -/
def theFigure (df : DataFrame) : Figure :=
  ⟨mkPanel df "Implementation" "Add Mean" "Add StdDev" "Add Orders (μs)",
   mkPanel df "Implementation" "Modify Mean" "Modify StdDev" "Modify Orders (μs)",
   mkPanel df "Implementation" "Delete Mean" "Delete StdDev" "Delete Orders (μs)",
   mkPanel df "Implementation" "BestPrice Mean" "BestPrice StdDev" "Best Price Lookup (ns)"⟩

lemma lookupIdx_eq_none_iff (name : String) (l : List String) :
    lookupIdx name l = none ↔ name ∉ l := by
  induction l with
  | nil => simp [lookupIdx]
  | cons c cs ih =>
    by_cases hc : c = name
    · subst hc; simp [lookupIdx]
    · rw [show lookupIdx name (c :: cs) = (lookupIdx name cs).map (· + 1) from by
        simp [lookupIdx, hc]]
      rw [Option.map_eq_none', ih]
      constructor
      · intro h
        simp only [List.mem_cons]
        rintro (h1 | h1)
        · exact hc h1.symm
        · exact h h1
      · intro h h2
        exact h (List.mem_cons_of_mem c h2)

lemma lookupIdx_isSome_of_mem {name : String} {l : List String}
    (h : name ∈ l) : ∃ i, lookupIdx name l = some i := by
  cases hq : lookupIdx name l with
  | none => exact absurd ((lookupIdx_eq_none_iff name l).mp hq) (by simp [h])
  | some i => exact ⟨i, rfl⟩

lemma lookupIdx_get? {name : String} {l : List String} {i : Nat}
    (h : lookupIdx name l = some i) : l.get? i = some name := by
  induction l generalizing i with
  | nil => simp [lookupIdx] at h
  | cons c cs ih =>
    by_cases hc : c = name
    · subst hc; simp [lookupIdx] at h; simp [← h]
    · simp [lookupIdx, hc] at h
      obtain ⟨j, hj, hji⟩ := h
      subst hji
      simpa using ih hj

lemma lookupIdx_lt_length {name : String} {l : List String} {i : Nat}
    (h : lookupIdx name l = some i) : i < l.length := by
  have := lookupIdx_get? h
  by_contra hge
  rw [List.get?_eq_none.mpr (by omega)] at this
  exact Option.noConfusion this

lemma getCells_eq_map (i : Nat) (rows : List (List Value))
    (h : ∀ r ∈ rows, i < r.length) :
    getCells i rows = some (rows.map fun r => r.getD i (Value.num 0)) := by
  induction rows with
  | nil => rfl
  | cons r rs ih =>
    have hr : i < r.length := h r (by simp)
    have hget : r[i]? = some (r.getD i (Value.num 0)) := by
      rw [List.getD_eq_getElem?_getD]
      cases hq : r[i]? with
      | none => exact absurd (List.getElem?_eq_none_iff.mp hq) (by omega)
      | some v => rfl
    have hih := ih (fun r2 hr2 => h r2 (by simp [hr2]))
    show (r.get? i).bind (fun v => (getCells i rs).bind fun vs => some (v :: vs)) =
      some (r.getD i (Value.num 0) :: rs.map fun r2 => r2.getD i (Value.num 0))
    rw [List.get?_eq_getElem?, hget, hih]
    rfl

lemma col_eq_some {df : DataFrame} {name : String} {i : Nat}
    (hidx : lookupIdx name df.header = some i) (hwf : WellFormed df) :
    df.col name = some (df.rows.map fun r => r.getD i (Value.num 0)) := by
  have hlt := lookupIdx_lt_length hidx
  unfold DataFrame.col
  rw [hidx]
  exact getCells_eq_map i df.rows (fun r hr => by rw [hwf r hr]; exact hlt)

lemma col_isSome_of_mem {df : DataFrame} {name : String}
    (hmem : name ∈ df.header) (hwf : WellFormed df) :
    df.col name = some (colD df name) ∧ (colD df name).length = df.rows.length := by
  obtain ⟨i, hi⟩ := lookupIdx_isSome_of_mem hmem
  have h := col_eq_some hi hwf
  refine ⟨?_, ?_⟩ <;> simp [colD, h]

lemma col_none_of_not_mem {df : DataFrame} {name : String}
    (h : name ∉ df.header) : df.col name = none := by
  unfold DataFrame.col
  rw [(lookupIdx_eq_none_iff name df.header).mpr h]

lemma mkBars_length {xs ys es : List Value}
    (h1 : xs.length = ys.length) (h2 : ys.length = es.length) :
    (mkBars xs ys es).length = xs.length := by
  induction xs generalizing ys es with
  | nil => simp [mkBars]
  | cons x xs ih =>
    cases ys with
    | nil => simp at h1
    | cons y ys =>
      cases es with
      | nil => simp at h2
      | cons e es =>
        simp only [mkBars, List.length_cons]
        rw [ih (by simpa using h1) (by simpa using h2)]

lemma mkBars_map_height {xs ys es : List Value}
    (h1 : xs.length = ys.length) (h2 : ys.length = es.length) :
    (mkBars xs ys es).map Bar.height = ys := by
  induction xs generalizing ys es with
  | nil => cases ys with
    | nil => simp [mkBars]
    | cons y ys => simp at h1
  | cons x xs ih =>
    cases ys with
    | nil => simp at h1
    | cons y ys =>
      cases es with
      | nil => simp at h2
      | cons e es =>
        show y :: (mkBars xs ys es).map Bar.height = y :: ys
        rw [ih (by simpa using h1) (by simpa using h2)]

lemma mkBars_map_err {xs ys es : List Value}
    (h1 : xs.length = ys.length) (h2 : ys.length = es.length) :
    (mkBars xs ys es).map Bar.err = es := by
  induction xs generalizing ys es with
  | nil => cases ys with
    | nil => cases es with
      | nil => simp [mkBars]
      | cons e es => simp at h2
    | cons y ys => simp at h1
  | cons x xs ih =>
    cases ys with
    | nil => simp at h1
    | cons y ys =>
      cases es with
      | nil => simp at h2
      | cons e es =>
        show e :: (mkBars xs ys es).map Bar.err = e :: es
        rw [ih (by simpa using h1) (by simpa using h2)]

lemma plotBar_eq_some {df : DataFrame} {x y e : String} (t : String)
    (hx : x ∈ df.header) (hy : y ∈ df.header) (he : e ∈ df.header)
    (hwf : WellFormed df) :
    df.plotBar x y e t = some (mkPanel df x y e t) := by
  obtain ⟨hcx, _⟩ := col_isSome_of_mem hx hwf
  obtain ⟨hcy, _⟩ := col_isSome_of_mem hy hwf
  obtain ⟨hce, _⟩ := col_isSome_of_mem he hwf
  simp [DataFrame.plotBar, hcx, hcy, hce, mkPanel]

lemma runScriptT_eq_some {df : DataFrame}
    (hwf : WellFormed df) (hreq : HasRequiredColumns df) :
    runScriptT (some df) = some (⟨theFigure df, scriptEffects⟩, df) := by
  have h0 : "Implementation" ∈ df.header := hreq _ (by simp [requiredColumns])
  have h1 : "Add Mean" ∈ df.header := hreq _ (by simp [requiredColumns])
  have h2 : "Add StdDev" ∈ df.header := hreq _ (by simp [requiredColumns])
  have h3 : "Modify Mean" ∈ df.header := hreq _ (by simp [requiredColumns])
  have h4 : "Modify StdDev" ∈ df.header := hreq _ (by simp [requiredColumns])
  have h5 : "Delete Mean" ∈ df.header := hreq _ (by simp [requiredColumns])
  have h6 : "Delete StdDev" ∈ df.header := hreq _ (by simp [requiredColumns])
  have h7 : "BestPrice Mean" ∈ df.header := hreq _ (by simp [requiredColumns])
  have h8 : "BestPrice StdDev" ∈ df.header := hreq _ (by simp [requiredColumns])
  have p1 := plotBar_eq_some "Add Orders (μs)" h0 h1 h2 hwf
  have p2 := plotBar_eq_some "Modify Orders (μs)" h0 h3 h4 hwf
  have p3 := plotBar_eq_some "Delete Orders (μs)" h0 h5 h6 hwf
  have p4 := plotBar_eq_some "Best Price Lookup (ns)" h0 h7 h8 hwf
  simp [runScriptT, plotBarS, p1, p2, p3, p4, theFigure, scriptEffects]

lemma plotBar_none {df : DataFrame} {x y e : String} (t : String)
    (h : x ∉ df.header ∨ y ∉ df.header ∨ e ∉ df.header) :
    df.plotBar x y e t = none := by
  rcases h with h | h | h
  · simp [DataFrame.plotBar, col_none_of_not_mem h]
  · cases hx : df.col x <;> simp [DataFrame.plotBar, hx, col_none_of_not_mem h]
  · cases hx : df.col x <;> cases hy : df.col y <;>
      simp [DataFrame.plotBar, hx, hy, col_none_of_not_mem h]

lemma runScriptT_none_of {df : DataFrame}
    (h : df.plotBar "Implementation" "Add Mean" "Add StdDev" "Add Orders (μs)" = none ∨
         df.plotBar "Implementation" "Modify Mean" "Modify StdDev" "Modify Orders (μs)" = none ∨
         df.plotBar "Implementation" "Delete Mean" "Delete StdDev" "Delete Orders (μs)" = none ∨
         df.plotBar "Implementation" "BestPrice Mean" "BestPrice StdDev" "Best Price Lookup (ns)" = none) :
    runScriptT (some df) = none := by
  rcases h with h | h | h | h
  · simp [runScriptT, plotBarS, h]
  · cases h1 : df.plotBar "Implementation" "Add Mean" "Add StdDev" "Add Orders (μs)" <;>
      simp [runScriptT, plotBarS, h1, h]
  · cases h1 : df.plotBar "Implementation" "Add Mean" "Add StdDev" "Add Orders (μs)" <;>
      cases h2 : df.plotBar "Implementation" "Modify Mean" "Modify StdDev" "Modify Orders (μs)" <;>
      simp [runScriptT, plotBarS, h1, h2, h]
  · cases h1 : df.plotBar "Implementation" "Add Mean" "Add StdDev" "Add Orders (μs)" <;>
      cases h2 : df.plotBar "Implementation" "Modify Mean" "Modify StdDev" "Modify Orders (μs)" <;>
      cases h3 : df.plotBar "Implementation" "Delete Mean" "Delete StdDev" "Delete Orders (μs)" <;>
      simp [runScriptT, plotBarS, h1, h2, h3, h]

lemma runScriptT_some_inv {file : Option DataFrame} {res : RunOutput × DataFrame}
    (h : runScriptT file = some res) :
    ∃ df p00 p01 p10 p11,
      file = some df ∧
      df.plotBar "Implementation" "Add Mean" "Add StdDev" "Add Orders (μs)" = some p00 ∧
      df.plotBar "Implementation" "Modify Mean" "Modify StdDev" "Modify Orders (μs)" = some p01 ∧
      df.plotBar "Implementation" "Delete Mean" "Delete StdDev" "Delete Orders (μs)" = some p10 ∧
      df.plotBar "Implementation" "BestPrice Mean" "BestPrice StdDev" "Best Price Lookup (ns)" = some p11 ∧
      res = (⟨⟨p00, p01, p10, p11⟩, scriptEffects⟩, df) := by
  cases file with
  | none => exact absurd h (by simp [runScriptT])
  | some df =>
    cases h1 : df.plotBar "Implementation" "Add Mean" "Add StdDev" "Add Orders (μs)" with
    | none => rw [runScriptT_none_of (Or.inl h1)] at h; exact Option.noConfusion h
    | some p00 =>
    cases h2 : df.plotBar "Implementation" "Modify Mean" "Modify StdDev" "Modify Orders (μs)" with
    | none => rw [runScriptT_none_of (Or.inr (Or.inl h2))] at h; exact Option.noConfusion h
    | some p01 =>
    cases h3 : df.plotBar "Implementation" "Delete Mean" "Delete StdDev" "Delete Orders (μs)" with
    | none => rw [runScriptT_none_of (Or.inr (Or.inr (Or.inl h3)))] at h; exact Option.noConfusion h
    | some p10 =>
    cases h4 : df.plotBar "Implementation" "BestPrice Mean" "BestPrice StdDev" "Best Price Lookup (ns)" with
    | none => rw [runScriptT_none_of (Or.inr (Or.inr (Or.inr h4)))] at h; exact Option.noConfusion h
    | some p11 =>
      refine ⟨df, p00, p01, p10, p11, rfl, h1, h2, h3, h4, ?_⟩
      simp [runScriptT, plotBarS, h1, h2, h3, h4, scriptEffects] at h
      exact h.symm

lemma plotBar_title {df : DataFrame} {x y e t : String} {p : Panel}
    (h : df.plotBar x y e t = some p) : p.title = t := by
  unfold DataFrame.plotBar at h
  cases hx : df.col x <;> rw [hx] at h <;> simp at h
  cases hy : df.col y <;> rw [hy] at h <;> simp at h
  cases he : df.col e <;> rw [he] at h <;> simp at h
  rw [← h]

/-- The projection of a DataFrame onto a list of column names, keeping the
rows in order (the "same rows restricted to those columns"). Cells of
columns absent from the original header are padded, but the claims only
use this when every requested column is present. -/
def DataFrame.restrict (df : DataFrame) (cols : List String) : DataFrame :=
  { header := cols,
    rows := df.rows.map fun r => cols.map fun c =>
      match lookupIdx c df.header with
      | some i => r.getD i (Value.num 0)
      | none => Value.num 0 }

lemma restrict_wellFormed (df : DataFrame) (cols : List String) :
    WellFormed (df.restrict cols) := by
  intro r hr
  simp only [DataFrame.restrict, List.mem_map] at hr
  obtain ⟨r0, _, hr0⟩ := hr
  simp [DataFrame.restrict, ← hr0]

lemma col_restrict {df : DataFrame} {cols : List String} {c : String}
    (hc : c ∈ cols) (hmem : c ∈ df.header) (hwf : WellFormed df) :
    (df.restrict cols).col c = df.col c := by
  obtain ⟨j, hj⟩ := lookupIdx_isSome_of_mem hc
  obtain ⟨i, hi⟩ := lookupIdx_isSome_of_mem hmem
  have hjlt : j < cols.length := lookupIdx_lt_length hj
  have hcj : cols[j]? = some c := by
    rw [← List.get?_eq_getElem?]; exact lookupIdx_get? hj
  have hL : (df.restrict cols).col c =
      some ((df.restrict cols).rows.map fun r => r.getD j (Value.num 0)) :=
    col_eq_some (show lookupIdx c (df.restrict cols).header = some j from hj)
      (restrict_wellFormed df cols)
  rw [hL, col_eq_some hi hwf]
  congr 1
  simp only [DataFrame.restrict, List.map_map]
  apply List.map_congr_left
  intro r _
  simp only [Function.comp]
  rw [List.getD_eq_getElem?_getD, List.getElem?_map, hcj]
  simp [hi]

lemma runScript_success {df : DataFrame}
    (hwf : WellFormed df) (hreq : HasRequiredColumns df) :
    runScript (some df) = some ⟨theFigure df, scriptEffects⟩ := by
  simp only [runScript]
  rw [runScriptT_eq_some hwf hreq]
  rfl

lemma panel_bar_counts {df : DataFrame}
    (hwf : WellFormed df) (hreq : HasRequiredColumns df) :
    ∀ p ∈ panelList (theFigure df), p.bars.length = df.rows.length := by
  have hlen : ∀ y e t, y ∈ df.header → e ∈ df.header →
      (mkPanel df "Implementation" y e t).bars.length = df.rows.length := by
    intro y e t hy he
    have hx := col_isSome_of_mem (hreq "Implementation" (by simp [requiredColumns])) hwf
    have hyy := col_isSome_of_mem hy hwf
    have hee := col_isSome_of_mem he hwf
    simp only [mkPanel]
    rw [mkBars_length (by rw [hx.2, hyy.2]) (by rw [hyy.2, hee.2])]
    exact hx.2
  intro p hp
  simp only [panelList, theFigure, List.mem_cons, List.not_mem_nil, or_false] at hp
  rcases hp with h | h | h | h <;> subst h <;>
    exact hlen _ _ _ (hreq _ (by simp [requiredColumns])) (hreq _ (by simp [requiredColumns]))

lemma runScript_effects {file : Option DataFrame} {out : RunOutput}
    (h : runScript file = some out) : out.effects = scriptEffects := by
  simp only [runScript, Option.map_eq_some'] at h
  obtain ⟨res, hres, hout⟩ := h
  obtain ⟨df, p00, p01, p10, p11, _, _, _, _, _, hres_eq⟩ := runScriptT_some_inv hres
  subst hres_eq
  rw [← hout]

lemma pngWritten_of_success {file : Option DataFrame} {out : RunOutput}
    (h : runScript file = some out) : pngWritten (runScript file) = true := by
  rw [h]
  show out.effects.contains (Effect.savefig "orderbook_benchmark.png") = true
  rw [runScript_effects h]
  rfl

/-- C1: for every well-formed input CSV containing the nine required columns
and `N` implementation rows, the run succeeds and produces exactly 4 panels
in the 2×2 grid, each containing exactly `N` bars, one per row. -/
theorem C1_four_panels_one_bar_per_row (df : DataFrame)
    (hwf : WellFormed df) (hreq : HasRequiredColumns df) :
    ∃ out, runScript (some df) = some out ∧
      (panelList out.figure).length = 4 ∧
      ∀ p ∈ panelList out.figure, p.bars.length = df.rows.length :=
  ⟨⟨theFigure df, scriptEffects⟩, runScript_success hwf hreq, rfl,
    panel_bar_counts hwf hreq⟩

/-- Witness for C1 at the two-row example dataset of the spec. -/
theorem C1_witness :
    WellFormed exampleDf ∧ HasRequiredColumns exampleDf ∧
    ∃ out, runScript (some exampleDf) = some out ∧
      (panelList out.figure).length = 4 ∧
      ∀ p ∈ panelList out.figure, p.bars.length = exampleDf.rows.length :=
  ⟨by decide, by decide,
    C1_four_panels_one_bar_per_row exampleDf (by decide) (by decide)⟩

/-- C2: for every well-formed input with the nine required columns, each
panel draws bar heights equal to its Mean column in row order and error-bar
half-widths equal to the corresponding StdDev column. -/
theorem C2_heights_and_error_bars (df : DataFrame)
    (hwf : WellFormed df) (hreq : HasRequiredColumns df) :
    ∃ out, runScript (some df) = some out ∧
      out.figure.topLeft.bars.map Bar.height = colD df "Add Mean" ∧
      out.figure.topLeft.bars.map Bar.err = colD df "Add StdDev" ∧
      out.figure.topRight.bars.map Bar.height = colD df "Modify Mean" ∧
      out.figure.topRight.bars.map Bar.err = colD df "Modify StdDev" ∧
      out.figure.bottomLeft.bars.map Bar.height = colD df "Delete Mean" ∧
      out.figure.bottomLeft.bars.map Bar.err = colD df "Delete StdDev" ∧
      out.figure.bottomRight.bars.map Bar.height = colD df "BestPrice Mean" ∧
      out.figure.bottomRight.bars.map Bar.err = colD df "BestPrice StdDev" := by
  have key : ∀ y e t, y ∈ df.header → e ∈ df.header →
      (mkPanel df "Implementation" y e t).bars.map Bar.height = colD df y ∧
      (mkPanel df "Implementation" y e t).bars.map Bar.err = colD df e := by
    intro y e t hy he
    have hx := col_isSome_of_mem (hreq "Implementation" (by simp [requiredColumns])) hwf
    have hyy := col_isSome_of_mem hy hwf
    have hee := col_isSome_of_mem he hwf
    exact ⟨mkBars_map_height (by rw [hx.2, hyy.2]) (by rw [hyy.2, hee.2]),
           mkBars_map_err (by rw [hx.2, hyy.2]) (by rw [hyy.2, hee.2])⟩
  obtain ⟨ha1, ha2⟩ := key "Add Mean" "Add StdDev" "Add Orders (μs)"
    (hreq _ (by simp [requiredColumns])) (hreq _ (by simp [requiredColumns]))
  obtain ⟨hm1, hm2⟩ := key "Modify Mean" "Modify StdDev" "Modify Orders (μs)"
    (hreq _ (by simp [requiredColumns])) (hreq _ (by simp [requiredColumns]))
  obtain ⟨hd1, hd2⟩ := key "Delete Mean" "Delete StdDev" "Delete Orders (μs)"
    (hreq _ (by simp [requiredColumns])) (hreq _ (by simp [requiredColumns]))
  obtain ⟨hb1, hb2⟩ := key "BestPrice Mean" "BestPrice StdDev" "Best Price Lookup (ns)"
    (hreq _ (by simp [requiredColumns])) (hreq _ (by simp [requiredColumns]))
  exact ⟨⟨theFigure df, scriptEffects⟩, runScript_success hwf hreq,
    ha1, ha2, hm1, hm2, hd1, hd2, hb1, hb2⟩

/-- Witness for C2 at the example rows of the spec: panel 1 (top left) has
two bars of heights 1.0 and 1.5 with error bars 0.1 and 0.2. -/
theorem C2_witness :
    WellFormed exampleDf ∧ HasRequiredColumns exampleDf ∧
    (∃ out, runScript (some exampleDf) = some out ∧
      out.figure.topLeft.bars.map Bar.height = colD exampleDf "Add Mean" ∧
      out.figure.topLeft.bars.map Bar.err = colD exampleDf "Add StdDev" ∧
      out.figure.topRight.bars.map Bar.height = colD exampleDf "Modify Mean" ∧
      out.figure.topRight.bars.map Bar.err = colD exampleDf "Modify StdDev" ∧
      out.figure.bottomLeft.bars.map Bar.height = colD exampleDf "Delete Mean" ∧
      out.figure.bottomLeft.bars.map Bar.err = colD exampleDf "Delete StdDev" ∧
      out.figure.bottomRight.bars.map Bar.height = colD exampleDf "BestPrice Mean" ∧
      out.figure.bottomRight.bars.map Bar.err = colD exampleDf "BestPrice StdDev") ∧
    colD exampleDf "Add Mean" = [Value.num 1, Value.num (3/2)] ∧
    colD exampleDf "Add StdDev" = [Value.num (1/10), Value.num (1/5)] :=
  ⟨by decide, by decide,
    C2_heights_and_error_bars exampleDf (by decide) (by decide), by rfl, by rfl⟩

/-- C3: on every successful run the four panel titles are exactly the four
fixed strings, each at its fixed position of the 2×2 grid: Add top-left,
Modify top-right, Delete bottom-left, BestPrice bottom-right. -/
theorem C3_titles_and_positions (file : Option DataFrame) (out : RunOutput)
    (h : runScript file = some out) :
    out.figure.topLeft.title = "Add Orders (μs)" ∧
    out.figure.topRight.title = "Modify Orders (μs)" ∧
    out.figure.bottomLeft.title = "Delete Orders (μs)" ∧
    out.figure.bottomRight.title = "Best Price Lookup (ns)" := by
  simp only [runScript, Option.map_eq_some'] at h
  obtain ⟨res, hres, hout⟩ := h
  obtain ⟨df, p00, p01, p10, p11, _, h1, h2, h3, h4, hres_eq⟩ := runScriptT_some_inv hres
  subst hres_eq
  rw [← hout]
  exact ⟨plotBar_title h1, plotBar_title h2, plotBar_title h3, plotBar_title h4⟩

/-- Witness for C3 at the example dataset. -/
theorem C3_witness :
    runScript (some exampleDf) = some ⟨theFigure exampleDf, scriptEffects⟩ ∧
    (theFigure exampleDf).topLeft.title = "Add Orders (μs)" ∧
    (theFigure exampleDf).topRight.title = "Modify Orders (μs)" ∧
    (theFigure exampleDf).bottomLeft.title = "Delete Orders (μs)" ∧
    (theFigure exampleDf).bottomRight.title = "Best Price Lookup (ns)" := by
  have hrun : runScript (some exampleDf) = some ⟨theFigure exampleDf, scriptEffects⟩ :=
    runScript_success (by decide) (by decide)
  exact ⟨hrun, C3_titles_and_positions (some exampleDf) _ hrun⟩

/-- C4: if any of the nine required columns is absent from the input CSV,
the run aborts with an error before the save step: it yields no output and
no PNG is written. -/
theorem C4_missing_column_aborts (df : DataFrame) (c : String)
    (hc : c ∈ requiredColumns) (habs : c ∉ df.header) :
    runScript (some df) = none ∧ pngWritten (runScript (some df)) = false := by
  have himpl : ∀ x y e t, (x = c ∨ y = c ∨ e = c) → df.plotBar x y e t = none := by
    intro x y e t hor
    apply plotBar_none
    rcases hor with h | h | h
    · exact Or.inl (h ▸ habs)
    · exact Or.inr (Or.inl (h ▸ habs))
    · exact Or.inr (Or.inr (h ▸ habs))
  have hnone : runScriptT (some df) = none := by
    apply runScriptT_none_of
    simp only [requiredColumns, List.mem_cons, List.not_mem_nil, or_false] at hc
    rcases hc with h | h | h | h | h | h | h | h | h
    · exact Or.inl (himpl _ _ _ _ (Or.inl h.symm))
    · exact Or.inl (himpl _ _ _ _ (Or.inr (Or.inl h.symm)))
    · exact Or.inl (himpl _ _ _ _ (Or.inr (Or.inr h.symm)))
    · exact Or.inr (Or.inl (himpl _ _ _ _ (Or.inr (Or.inl h.symm))))
    · exact Or.inr (Or.inl (himpl _ _ _ _ (Or.inr (Or.inr h.symm))))
    · exact Or.inr (Or.inr (Or.inl (himpl _ _ _ _ (Or.inr (Or.inl h.symm)))))
    · exact Or.inr (Or.inr (Or.inl (himpl _ _ _ _ (Or.inr (Or.inr h.symm)))))
    · exact Or.inr (Or.inr (Or.inr (himpl _ _ _ _ (Or.inr (Or.inl h.symm)))))
    · exact Or.inr (Or.inr (Or.inr (himpl _ _ _ _ (Or.inr (Or.inr h.symm)))))
  constructor
  · simp only [runScript]
    rw [hnone]
    rfl
  · simp only [runScript]
    rw [hnone]
    rfl

/-- A CSV lacking the `Add StdDev` column (and six others). -/
def missingColDf : DataFrame :=
  { header := ["Implementation", "Add Mean"],
    rows := [[Value.str "A", Value.num 1]] }

/-- Witness for C4: with `Add StdDev` absent, the run fails and writes
nothing. -/
theorem C4_witness :
    "Add StdDev" ∈ requiredColumns ∧ "Add StdDev" ∉ missingColDf.header ∧
    (runScript (some missingColDf) = none ∧
      pngWritten (runScript (some missingColDf)) = false) :=
  ⟨by decide, by decide,
    C4_missing_column_aborts missingColDf "Add StdDev" (by decide) (by decide)⟩

/-- C5: if the input CSV file is missing or unreadable, the run fails at
the loading step and produces nothing: the output PNG is not written. -/
theorem C5_missing_file_aborts :
    runScript none = none ∧ pngWritten (runScript none) = false :=
  ⟨rfl, rfl⟩

/-- C6: every successful run saves the figure as the PNG at the fixed
relative path, and the save happens before the interactive display: the
post-render effects are exactly `tight_layout`, then
`savefig "orderbook_benchmark.png"`, then `show`. -/
theorem C6_saves_png_before_show (file : Option DataFrame) (out : RunOutput)
    (h : runScript file = some out) :
    out.effects =
      [Effect.tightLayout, Effect.savefig "orderbook_benchmark.png",
       Effect.showFig] ∧
    pngWritten (runScript file) = true := by
  constructor
  · rw [runScript_effects h]
    rfl
  · exact pngWritten_of_success h

/-- Witness for C6 at the example dataset. -/
theorem C6_witness :
    runScript (some exampleDf) = some ⟨theFigure exampleDf, scriptEffects⟩ ∧
    (RunOutput.mk (theFigure exampleDf) scriptEffects).effects =
      [Effect.tightLayout, Effect.savefig "orderbook_benchmark.png",
       Effect.showFig] ∧
    pngWritten (runScript (some exampleDf)) = true := by
  have hrun : runScript (some exampleDf) = some ⟨theFigure exampleDf, scriptEffects⟩ :=
    runScript_success (by decide) (by decide)
  exact ⟨hrun, C6_saves_png_before_show (some exampleDf) _ hrun⟩

/-- C7: the script is deterministic: two runs on identical input contents
render identical results, and on success both runs write the output file. -/
theorem C7_deterministic (f1 f2 : Option DataFrame) (h : f1 = f2) :
    runScript f1 = runScript f2 ∧
    ∀ out, runScript f1 = some out →
      pngWritten (runScript f1) = true ∧ pngWritten (runScript f2) = true := by
  subst h
  exact ⟨rfl, fun out hout =>
    ⟨pngWritten_of_success hout, pngWritten_of_success hout⟩⟩

/-- Witness for C7: two runs on the example dataset. -/
theorem C7_witness :
    runScript (some exampleDf) = runScript (some exampleDf) ∧
    ∀ out, runScript (some exampleDf) = some out →
      pngWritten (runScript (some exampleDf)) = true ∧
      pngWritten (runScript (some exampleDf)) = true :=
  C7_deterministic (some exampleDf) (some exampleDf) rfl

/-- C8: the dataset is read once and never mutated: whatever the run does,
the DataFrame it holds at the end is exactly the one loaded at the start. -/
theorem C8_no_mutation (df : DataFrame) (res : RunOutput × DataFrame)
    (h : runScriptT (some df) = some res) : res.2 = df := by
  obtain ⟨df2, p00, p01, p10, p11, hfile, _, _, _, _, hres_eq⟩ :=
    runScriptT_some_inv h
  have hdf := Option.some.inj hfile
  subst hdf
  rw [hres_eq]

/-- Witness for C8 at the example dataset. -/
theorem C8_witness :
    runScriptT (some exampleDf) =
      some (⟨theFigure exampleDf, scriptEffects⟩, exampleDf) ∧
    ((⟨theFigure exampleDf, scriptEffects⟩, exampleDf) :
      RunOutput × DataFrame).2 = exampleDf := by
  have hrun := runScriptT_eq_some (show WellFormed exampleDf by decide) (show HasRequiredColumns exampleDf by decide)
  exact ⟨hrun, C8_no_mutation exampleDf _ hrun⟩

/-- C9: columns beyond the nine required ones are ignored: a well-formed
CSV with the required columns renders exactly the same output as the same
rows restricted to the nine required columns. -/
theorem C9_extra_columns_ignored (df : DataFrame)
    (hwf : WellFormed df) (hreq : HasRequiredColumns df) :
    runScript (some df) = some ⟨theFigure df, scriptEffects⟩ ∧
    runScript (some df) = runScript (some (df.restrict requiredColumns)) := by
  have hreq2 : HasRequiredColumns (df.restrict requiredColumns) := fun c hc => hc
  have hwf2 := restrict_wellFormed df requiredColumns
  refine ⟨runScript_success hwf hreq, ?_⟩
  rw [runScript_success hwf hreq, runScript_success hwf2 hreq2]
  have hcol : ∀ c ∈ requiredColumns,
      colD (df.restrict requiredColumns) c = colD df c := by
    intro c hc
    unfold colD
    rw [col_restrict hc (hreq c hc) hwf]
  have h0 := hcol "Implementation" (by simp [requiredColumns])
  have ha1 := hcol "Add Mean" (by simp [requiredColumns])
  have ha2 := hcol "Add StdDev" (by simp [requiredColumns])
  have hm1 := hcol "Modify Mean" (by simp [requiredColumns])
  have hm2 := hcol "Modify StdDev" (by simp [requiredColumns])
  have hd1 := hcol "Delete Mean" (by simp [requiredColumns])
  have hd2 := hcol "Delete StdDev" (by simp [requiredColumns])
  have hb1 := hcol "BestPrice Mean" (by simp [requiredColumns])
  have hb2 := hcol "BestPrice StdDev" (by simp [requiredColumns])
  simp only [theFigure, mkPanel, h0, ha1, ha2, hm1, hm2, hd1, hd2, hb1, hb2]

/-- A CSV with the nine required columns plus an extra `Notes` column. -/
def extraColDf : DataFrame :=
  { header := requiredColumns ++ ["Notes"],
    rows := [[Value.str "A", Value.num 1, Value.num (1/10), Value.num 2,
              Value.num (1/5), Value.num 3, Value.num (3/10), Value.num 10,
              Value.num 1, Value.str "fast"]] }

/-- Witness for C9: the extra `Notes` column changes nothing. -/
theorem C9_witness :
    WellFormed extraColDf ∧ HasRequiredColumns extraColDf ∧
    (runScript (some extraColDf) = some ⟨theFigure extraColDf, scriptEffects⟩ ∧
      runScript (some extraColDf) =
        runScript (some (extraColDf.restrict requiredColumns))) :=
  ⟨by decide, by decide,
    C9_extra_columns_ignored extraColDf (by decide) (by decide)⟩

/-- C10: uniqueness of the Implementation column is not enforced: even when
two rows share the same label, the run succeeds and every panel still has
one bar per row. -/
theorem C10_duplicate_labels_allowed (df : DataFrame)
    (hwf : WellFormed df) (hreq : HasRequiredColumns df)
    (_hdup : ¬ (colD df "Implementation").Nodup) :
    ∃ out, runScript (some df) = some out ∧
      ∀ p ∈ panelList out.figure, p.bars.length = df.rows.length :=
  ⟨⟨theFigure df, scriptEffects⟩, runScript_success hwf hreq,
    panel_bar_counts hwf hreq⟩

/-- A CSV whose two rows share the Implementation label `A`. -/
def dupLabelDf : DataFrame :=
  { header := requiredColumns,
    rows := [[Value.str "A", Value.num 1, Value.num 2, Value.num 3,
              Value.num 4, Value.num 5, Value.num 6, Value.num 7,
              Value.num 8],
             [Value.str "A", Value.num 9, Value.num 10, Value.num 11,
              Value.num 12, Value.num 13, Value.num 14, Value.num 15,
              Value.num 16]] }

/-- Witness for C10: duplicate labels, still two bars in every panel. -/
theorem C10_witness :
    WellFormed dupLabelDf ∧ HasRequiredColumns dupLabelDf ∧
    ¬ (colD dupLabelDf "Implementation").Nodup ∧
    ∃ out, runScript (some dupLabelDf) = some out ∧
      ∀ p ∈ panelList out.figure, p.bars.length = dupLabelDf.rows.length :=
  ⟨by decide, by decide, by decide,
    C10_duplicate_labels_allowed dupLabelDf (by decide) (by decide) (by decide)⟩
